import Mathlib

/-!
Shallow embedding of the muta-tutorial-dex core: the asset ledger service
(src/services/asset/src/lib.rs) and the DEX service
(src/services/dex/src/lib.rs, src/services/dex/src/types.rs).

Modelling conventions:
* A `Hash` (and an `Address`) is identified with its hex string; the source
  only compares hashes, concatenates their hex forms and digests strings, so
  any totally ordered type with a digest function is a faithful carrier.
* u64 values are `Nat`; every unchecked u64 operation of the source carries
  an explicit `% twoPow64`, and `overflowing_add` is modelled as the pair
  (sum % twoPow64, twoPow64 ≤ sum), exactly as checked by the source.
* `ServiceResponse` is modelled as `Except` with the service error type; the
  DEX forwards asset errors verbatim (`ServiceResponse::from_error(code, msg)`),
  modelled by the sum type `DexFail`.
* A Rust `panic!`/`expect`/`unwrap` is modelled by an `Option` layer on the
  result (`none` = panic) where a claim touches that path.
* The per-(user, asset) balance store is a total function with the default
  balance `{current := 0, locked := 0}` baked in; the source reads every
  missing slot through `unwrap_or(Balance::default())`, so the two views are
  observationally identical.
-/

namespace MutaDex

abbrev Hash := String

abbrev Address := String

/-- The hex form of a hash; hashes are carried as their hex strings. -/
def Hash.as_hex (h : Hash) : String := h

/-- Stand-in for the cryptographic digest: any concrete injection from
strings to hashes; the claims only use that equal inputs give equal ids. -/
def Hash.digest (s : String) : Hash := "digest/" ++ s

def twoPow64 : Nat := 2 ^ 64

/-- Shared capability token (`ADMISSION_TOKEN`, the byte string b"dex_token"
in both services). -/
def ADMISSION_TOKEN : String := "dex_token"

structure Asset where
  id : Hash
  name : String
  symbol : String
  supply : Nat
  issuer : Address
deriving DecidableEq

structure Balance where
  current : Nat
  locked : Nat
deriving DecidableEq

structure ModifyBalancePayload where
  asset_id : Hash
  user : Address
  value : Nat
deriving DecidableEq

structure TransferPayload where
  asset_id : Hash
  toUser : Address
  value : Nat
deriving DecidableEq

inductive AssetError where
  | JsonParse
  | AssetExisted (id : Hash)
  | AssetNotExist (id : Hash)
  | InsufficientBalance (wanted had : Nat)
  | U64Overflow
  | PermissionDenial
deriving DecidableEq

/-- Stable numeric codes of `AssetError::code`. -/
def AssetError.code : AssetError → Nat
  | .JsonParse => 101
  | .AssetExisted _ => 102
  | .AssetNotExist _ => 103
  | .InsufficientBalance _ _ => 104
  | .U64Overflow => 105
  | .PermissionDenial => 106

/-- Persistent state of `AssetService`: the `assets` map and the
per-(user, asset) balance slots held through the SDK. -/
structure AssetService where
  assets : Hash → Option Asset
  balances : Address → Hash → Balance

/-- `sdk.set_account_value(&user, asset_id, balance)`. -/
def AssetService.setBal (s : AssetService) (u : Address) (a : Hash) (b : Balance) :
    AssetService :=
  { s with balances := fun v x => if v = u ∧ x = a then b else s.balances v x }

/-- Body of the `lock` facade method after the admission check
(lib.rs lines 113-142). -/
def AssetService.lockCore (s : AssetService) (p : ModifyBalancePayload) :
    Except AssetError Unit × AssetService :=
  if s.assets p.asset_id = none then
    (.error (.AssetNotExist p.asset_id), s)
  else
    let balance := s.balances p.user p.asset_id
    if balance.current < p.value then
      (.error (.InsufficientBalance p.value balance.current), s)
    else
      let current := balance.current - p.value
      let result := (balance.locked + p.value) % twoPow64
      if twoPow64 ≤ balance.locked + p.value then
        (.error .U64Overflow, s)
      else
        (.ok (), s.setBal p.user p.asset_id ⟨current, result⟩)

/-- Body of the `unlock` facade method after the admission check
(lib.rs lines 155-183). -/
def AssetService.unlockCore (s : AssetService) (p : ModifyBalancePayload) :
    Except AssetError Unit × AssetService :=
  if s.assets p.asset_id = none then
    (.error (.AssetNotExist p.asset_id), s)
  else
    let balance := s.balances p.user p.asset_id
    if balance.locked < p.value then
      (.error (.InsufficientBalance p.value balance.locked), s)
    else
      let locked := balance.locked - p.value
      let result := (balance.current + p.value) % twoPow64
      if twoPow64 ≤ balance.current + p.value then
        (.error .U64Overflow, s)
      else
        (.ok (), s.setBal p.user p.asset_id ⟨result, locked⟩)

/-- `AssetService::_add_value` (lib.rs lines 307-329). -/
def AssetService.add_value_impl (s : AssetService) (p : ModifyBalancePayload) :
    Except AssetError Unit × AssetService :=
  if s.assets p.asset_id = none then
    (.error (.AssetNotExist p.asset_id), s)
  else
    let balance := s.balances p.user p.asset_id
    let result := (balance.current + p.value) % twoPow64
    if twoPow64 ≤ balance.current + p.value then
      (.error .U64Overflow, s)
    else
      (.ok (), s.setBal p.user p.asset_id ⟨result, balance.locked⟩)

/-- `AssetService::_sub_value` (lib.rs lines 331-356). -/
def AssetService.sub_value_impl (s : AssetService) (p : ModifyBalancePayload) :
    Except AssetError Unit × AssetService :=
  if s.assets p.asset_id = none then
    (.error (.AssetNotExist p.asset_id), s)
  else
    let balance := s.balances p.user p.asset_id
    if balance.current < p.value then
      (.error (.InsufficientBalance p.value balance.current), s)
    else
      (.ok (), s.setBal p.user p.asset_id ⟨balance.current - p.value, balance.locked⟩)

/-- Facade `lock`: `ctx.get_extra().expect(..)` (panic, modelled `none`, when
the context carries no extra token), then the admission check, then the body. -/
def AssetService.lock (s : AssetService) (extra : Option String)
    (p : ModifyBalancePayload) : Option (Except AssetError Unit × AssetService) :=
  match extra with
  | none => none
  | some e =>
    some (if e ≠ ADMISSION_TOKEN then (.error .PermissionDenial, s) else s.lockCore p)

/-- Facade `unlock`, same admission protocol as `lock`. -/
def AssetService.unlock (s : AssetService) (extra : Option String)
    (p : ModifyBalancePayload) : Option (Except AssetError Unit × AssetService) :=
  match extra with
  | none => none
  | some e =>
    some (if e ≠ ADMISSION_TOKEN then (.error .PermissionDenial, s) else s.unlockCore p)

/-- Facade `add_value`: admission check, then `_add_value`. -/
def AssetService.add_value (s : AssetService) (extra : Option String)
    (p : ModifyBalancePayload) : Option (Except AssetError Unit × AssetService) :=
  match extra with
  | none => none
  | some e =>
    some (if e ≠ ADMISSION_TOKEN then (.error .PermissionDenial, s) else s.add_value_impl p)

/-- Facade `sub_value`: admission check, then `_sub_value`. -/
def AssetService.sub_value (s : AssetService) (extra : Option String)
    (p : ModifyBalancePayload) : Option (Except AssetError Unit × AssetService) :=
  match extra with
  | none => none
  | some e =>
    some (if e ≠ ADMISSION_TOKEN then (.error .PermissionDenial, s) else s.sub_value_impl p)

/-- `AssetService::get_asset` (lib.rs lines 253-260). On a miss the source
returns the `AssetExisted` variant, not `AssetNotExist`. -/
def AssetService.get_asset (s : AssetService) (id : Hash) : Except AssetError Asset :=
  match s.assets id with
  | some a => .ok a
  | none => .error (.AssetExisted id)

/-- `AssetService::transfer` (lib.rs lines 279-305): debit the caller via
`_sub_value`, then credit the recipient via `_add_value`; an error in the
second call is returned with the first call's state change kept. -/
def AssetService.transfer (s : AssetService) (caller : Address) (p : TransferPayload) :
    Except AssetError Unit × AssetService :=
  match s.sub_value_impl ⟨p.asset_id, caller, p.value⟩ with
  | (.error e, s1) => (.error e, s1)
  | (.ok _, s1) =>
    match s1.add_value_impl ⟨p.asset_id, p.toUser, p.value⟩ with
    | (.error e, s2) => (.error e, s2)
    | (.ok _, s2) => (.ok (), s2)

inductive OrderKind where
  | Buy
  | Sell
deriving DecidableEq

inductive OrderStatus where
  | Fresh
  | Partial (v : Nat)
  | Full
deriving DecidableEq

structure Deal where
  price : Nat
  amount : Nat
deriving DecidableEq

structure Trade where
  id : Hash
  base_asset : Hash
  counter_party : Hash
deriving DecidableEq

structure Order where
  trade_id : Hash
  tx_hash : Hash
  kind : OrderKind
  price : Nat
  amount : Nat
  height : Nat
  user : Address
  expiry : Nat
  status : OrderStatus
  deals : List Deal
deriving DecidableEq

structure AddTradePayload where
  base_asset : Hash
  counter_party : Hash
deriving DecidableEq

structure OrderPayload where
  trade_id : Hash
  kind : OrderKind
  price : Nat
  amount : Nat
  expiry : Nat
deriving DecidableEq

structure ModifyAssetPayload where
  asset_id : Hash
  user : Address
  value : Nat
deriving DecidableEq

/-- `impl PartialOrd for Order` (types.rs lines 289-313). -/
def Order.partial_cmp (a b : Order) : Option Ordering :=
  match a.kind, b.kind with
  | .Sell, .Sell =>
    if a.price > b.price then some .lt
    else if a.price < b.price then some .gt
    else some (compare a.height b.height)
  | .Buy, .Buy =>
    if a.price > b.price then some .gt
    else if a.price < b.price then some .lt
    else some (compare a.height b.height)
  | _, _ => none

inductive DexError where
  | JsonParse
  | IllegalTrade
  | TradeExisted
  | TradeNotExisted
  | OrderOverdue
  | OrderNotExisted
deriving DecidableEq

/-- Stable numeric codes of `DexError::code`. -/
def DexError.code : DexError → Nat
  | .JsonParse => 201
  | .IllegalTrade => 202
  | .TradeExisted => 203
  | .TradeNotExisted => 204
  | .OrderOverdue => 205
  | .OrderNotExisted => 206

/-- An error surfaced by a DEX method: either its own `DexError` or an asset
facade error forwarded with its original code. -/
inductive DexFail where
  | dex (e : DexError)
  | asset (e : AssetError)
deriving DecidableEq

def DexFail.code : DexFail → Nat
  | .dex e => e.code
  | .asset e => e.code

/-- Insert-or-overwrite into a function-backed map (`StoreMap::insert`). -/
def fmInsert {α : Type} (k : Hash) (v : α) (m : Hash → Option α) : Hash → Option α :=
  fun x => if x = k then some v else m x

/-- Lookup in a list-backed order book keyed by tx hash. -/
def mapGet (k : Hash) (m : List (Hash × Order)) : Option Order :=
  (m.find? fun q => decide (q.1 = k)).map Prod.snd

/-- `StoreMap::remove` on a list-backed order book. -/
def mapRemove (k : Hash) (m : List (Hash × Order)) : List (Hash × Order) :=
  m.filter fun q => !(decide (q.1 = k))

/-- `StoreMap::insert` (overwrite) on a list-backed order book. -/
def mapInsert (k : Hash) (v : Order) (m : List (Hash × Order)) : List (Hash × Order) :=
  (k, v) :: mapRemove k m

/-- Persistent state of `DexService`, including the colocated asset service
it holds as collaborator (both SDK handles name the same persistent slots). -/
structure DexService where
  trades : Hash → Option Trade
  buy_orders : List (Hash × Order)
  sell_orders : List (Hash × Order)
  history_orders : List (Hash × Order)
  validity : Nat
  asset : AssetService

/-- `DexService::lock_asset`: calls the asset facade with the synthesised
context carrying `ADMISSION_TOKEN` (the `none` arm is dead: the synthesised
context always carries the token). -/
def DexService.lock_asset (s : DexService) (p : ModifyAssetPayload) :
    Except AssetError Unit × DexService :=
  match s.asset.lock (some ADMISSION_TOKEN) ⟨p.asset_id, p.user, p.value⟩ with
  | some (r, a) => (r, { s with asset := a })
  | none => (.error .PermissionDenial, s)

/-- `DexService::unlock_asset` through the synthesised admission context. -/
def DexService.unlock_asset (s : DexService) (p : ModifyAssetPayload) :
    Except AssetError Unit × DexService :=
  match s.asset.unlock (some ADMISSION_TOKEN) ⟨p.asset_id, p.user, p.value⟩ with
  | some (r, a) => (r, { s with asset := a })
  | none => (.error .PermissionDenial, s)

/-- `DexService::add_value` through the synthesised admission context. -/
def DexService.add_value (s : DexService) (p : ModifyAssetPayload) :
    Except AssetError Unit × DexService :=
  match s.asset.add_value (some ADMISSION_TOKEN) ⟨p.asset_id, p.user, p.value⟩ with
  | some (r, a) => (r, { s with asset := a })
  | none => (.error .PermissionDenial, s)

/-- `DexService::sub_value` through the synthesised admission context. -/
def DexService.sub_value (s : DexService) (p : ModifyAssetPayload) :
    Except AssetError Unit × DexService :=
  match s.asset.sub_value (some ADMISSION_TOKEN) ⟨p.asset_id, p.user, p.value⟩ with
  | some (r, a) => (r, { s with asset := a })
  | none => (.error .PermissionDenial, s)

/-- `DexService::get_trade` (lib.rs lines 681-687). -/
def DexService.get_trade (s : DexService) (trade_id : Hash) : Except DexFail Trade :=
  match s.trades trade_id with
  | some t => .ok t
  | none => .error (.dex .TradeNotExisted)

/-- Canonical trade id of `add_trade`: digest of the smaller hex followed by
the larger (lib.rs lines 128-132). -/
def addTradeId (base_asset counter_party : Hash) : Hash :=
  if base_asset < counter_party then
    Hash.digest (Hash.as_hex base_asset ++ Hash.as_hex counter_party)
  else
    Hash.digest (Hash.as_hex counter_party ++ Hash.as_hex base_asset)

/-- `DexService::add_trade` (lib.rs lines 120-148). -/
def DexService.add_trade (s : DexService) (p : AddTradePayload) :
    Except DexFail Unit × DexService :=
  if p.base_asset = p.counter_party then
    (.error (.dex .IllegalTrade), s)
  else
    let trade_id := addTradeId p.base_asset p.counter_party
    if (s.trades trade_id).isSome then
      (.error (.dex .TradeExisted), s)
    else
      (.ok (), { s with
        trades := fmInsert trade_id ⟨trade_id, p.base_asset, p.counter_party⟩ s.trades })

/-- `DexService::order` (lib.rs lines 162-221). The context is passed as its
used parts; a missing tx hash panics in the source, so orders are always
submitted inside a transaction and the tx hash is taken as given. The buy
escrow `order.amount * order.price` is the source's unchecked u64 product. -/
def DexService.order (s : DexService) (caller : Address) (tx_hash : Hash)
    (height : Nat) (p : OrderPayload) : Except DexFail Unit × DexService :=
  if s.trades p.trade_id = none then
    (.error (.dex .TradeNotExisted), s)
  else if (height + s.validity) % twoPow64 < p.expiry then
    (.error (.dex .OrderOverdue), s)
  else
    let o : Order :=
      { trade_id := p.trade_id, tx_hash := tx_hash, kind := p.kind, price := p.price,
        amount := p.amount, height := height, user := caller, expiry := p.expiry,
        status := .Fresh, deals := [] }
    match p.kind with
    | .Buy =>
      match s.get_trade p.trade_id with
      | .error e => (.error e, s)
      | .ok trade =>
        match s.lock_asset ⟨trade.base_asset, caller, (o.amount * o.price) % twoPow64⟩ with
        | (.error e, s1) => (.error (.asset e), s1)
        | (.ok _, s1) => (.ok (), { s1 with buy_orders := mapInsert tx_hash o s1.buy_orders })
    | .Sell =>
      match s.get_trade p.trade_id with
      | .error e => (.error e, s)
      | .ok trade =>
        match s.lock_asset ⟨trade.counter_party, caller, o.amount⟩ with
        | (.error e, s1) => (.error (.asset e), s1)
        | (.ok _, s1) => (.ok (), { s1 with sell_orders := mapInsert tx_hash o s1.sell_orders })

/-- The dealt amount bookkeeping of the settle helpers; the `Full` arm is the
source's `panic!("should not be full")`, modelled as `none`. -/
def OrderStatus.dealtAmount : OrderStatus → Option Nat
  | .Fresh => some 0
  | .Partial v => some v
  | .Full => none

/-- `DexService::settle_buyer` (lib.rs lines 325-406): six facade calls, then
the buy order fills; the seller becomes `Partial` and is written back. The
outer `Option` is `none` exactly on the `panic!` of a `Full` seller. -/
def DexService.settle_buyer (s : DexService) (deal_price deal_amount : Nat)
    (current_buy current_sell : Order) : Option (Except DexFail Order × DexService) :=
  match s.get_trade current_buy.trade_id with
  | .error e => some (.error e, s)
  | .ok trade =>
  match s.unlock_asset ⟨trade.base_asset, current_buy.user,
      (deal_amount * current_buy.price) % twoPow64⟩ with
  | (.error e, s1) => some (.error (.asset e), s1)
  | (.ok _, s1) =>
  match s1.add_value ⟨trade.counter_party, current_buy.user, deal_amount⟩ with
  | (.error e, s2) => some (.error (.asset e), s2)
  | (.ok _, s2) =>
  match s2.sub_value ⟨trade.base_asset, current_buy.user,
      (deal_amount * deal_price) % twoPow64⟩ with
  | (.error e, s3) => some (.error (.asset e), s3)
  | (.ok _, s3) =>
  match s3.unlock_asset ⟨trade.counter_party, current_sell.user, deal_amount⟩ with
  | (.error e, s4) => some (.error (.asset e), s4)
  | (.ok _, s4) =>
  match s4.add_value ⟨trade.base_asset, current_sell.user,
      (deal_amount * deal_price) % twoPow64⟩ with
  | (.error e, s5) => some (.error (.asset e), s5)
  | (.ok _, s5) =>
  match s5.sub_value ⟨trade.counter_party, current_sell.user, deal_amount⟩ with
  | (.error e, s6) => some (.error (.asset e), s6)
  | (.ok _, s6) =>
  let settle_deal : Deal := ⟨deal_price, deal_amount⟩
  let buy1 : Order := { current_buy with
    status := .Full, deals := current_buy.deals ++ [settle_deal] }
  match current_sell.status.dealtAmount with
  | none => none
  | some dealt =>
    let sell1 : Order := { current_sell with
      status := .Partial (dealt + settle_deal.amount),
      deals := current_sell.deals ++ [settle_deal] }
    some (.ok sell1, { s6 with
      buy_orders := mapRemove buy1.tx_hash s6.buy_orders,
      history_orders := mapInsert buy1.tx_hash buy1 s6.history_orders,
      sell_orders := mapInsert sell1.tx_hash sell1 s6.sell_orders })

/-- `DexService::settle_seller` (lib.rs lines 408-490), the mirror image:
seller fills, buyer becomes `Partial` and is written back. -/
def DexService.settle_seller (s : DexService) (deal_price deal_amount : Nat)
    (current_buy current_sell : Order) : Option (Except DexFail Order × DexService) :=
  match s.get_trade current_buy.trade_id with
  | .error e => some (.error e, s)
  | .ok trade =>
  match s.unlock_asset ⟨trade.counter_party, current_sell.user, deal_amount⟩ with
  | (.error e, s1) => some (.error (.asset e), s1)
  | (.ok _, s1) =>
  match s1.add_value ⟨trade.base_asset, current_sell.user,
      (deal_amount * deal_price) % twoPow64⟩ with
  | (.error e, s2) => some (.error (.asset e), s2)
  | (.ok _, s2) =>
  match s2.sub_value ⟨trade.counter_party, current_sell.user, deal_amount⟩ with
  | (.error e, s3) => some (.error (.asset e), s3)
  | (.ok _, s3) =>
  match s3.unlock_asset ⟨trade.base_asset, current_buy.user,
      (deal_amount * current_buy.price) % twoPow64⟩ with
  | (.error e, s4) => some (.error (.asset e), s4)
  | (.ok _, s4) =>
  match s4.add_value ⟨trade.counter_party, current_buy.user, deal_amount⟩ with
  | (.error e, s5) => some (.error (.asset e), s5)
  | (.ok _, s5) =>
  match s5.sub_value ⟨trade.base_asset, current_buy.user,
      (deal_amount * deal_price) % twoPow64⟩ with
  | (.error e, s6) => some (.error (.asset e), s6)
  | (.ok _, s6) =>
  let settle_deal : Deal := ⟨deal_price, deal_amount⟩
  let sell1 : Order := { current_sell with
    status := .Full, deals := current_sell.deals ++ [settle_deal] }
  match current_buy.status.dealtAmount with
  | none => none
  | some dealt =>
    let buy1 : Order := { current_buy with
      status := .Partial (dealt + settle_deal.amount),
      deals := current_buy.deals ++ [settle_deal] }
    some (.ok buy1, { s6 with
      sell_orders := mapRemove sell1.tx_hash s6.sell_orders,
      history_orders := mapInsert sell1.tx_hash sell1 s6.history_orders,
      buy_orders := mapInsert buy1.tx_hash buy1 s6.buy_orders })

/-- `DexService::settle_both` (lib.rs lines 492-563): both orders fill and
move to history; nothing is written back to the books. -/
def DexService.settle_both (s : DexService) (deal_price deal_amount : Nat)
    (current_buy current_sell : Order) : Except DexFail Unit × DexService :=
  match s.get_trade current_buy.trade_id with
  | .error e => (.error e, s)
  | .ok trade =>
  match s.unlock_asset ⟨trade.counter_party, current_sell.user, deal_amount⟩ with
  | (.error e, s1) => (.error (.asset e), s1)
  | (.ok _, s1) =>
  match s1.add_value ⟨trade.base_asset, current_sell.user,
      (deal_amount * deal_price) % twoPow64⟩ with
  | (.error e, s2) => (.error (.asset e), s2)
  | (.ok _, s2) =>
  match s2.sub_value ⟨trade.counter_party, current_sell.user, deal_amount⟩ with
  | (.error e, s3) => (.error (.asset e), s3)
  | (.ok _, s3) =>
  match s3.unlock_asset ⟨trade.base_asset, current_buy.user,
      (deal_amount * current_buy.price) % twoPow64⟩ with
  | (.error e, s4) => (.error (.asset e), s4)
  | (.ok _, s4) =>
  match s4.add_value ⟨trade.counter_party, current_buy.user, deal_amount⟩ with
  | (.error e, s5) => (.error (.asset e), s5)
  | (.ok _, s5) =>
  match s5.sub_value ⟨trade.base_asset, current_buy.user,
      (deal_amount * deal_price) % twoPow64⟩ with
  | (.error e, s6) => (.error (.asset e), s6)
  | (.ok _, s6) =>
  let settle_deal : Deal := ⟨deal_price, deal_amount⟩
  let sell1 : Order := { current_sell with
    status := .Full, deals := current_sell.deals ++ [settle_deal] }
  let buy1 : Order := { current_buy with
    status := .Full, deals := current_buy.deals ++ [settle_deal] }
  (.ok (), { s6 with
    sell_orders := mapRemove sell1.tx_hash s6.sell_orders,
    buy_orders := mapRemove buy1.tx_hash s6.buy_orders,
    history_orders :=
      mapInsert buy1.tx_hash buy1 (mapInsert sell1.tx_hash sell1 s6.history_orders) })

/-- The mid-price of the match loop (lib.rs line 276): unchecked u64 sum of
the two prices, halved by integer division. -/
def deal_price (buy_price sell_price : Nat) : Nat :=
  ((buy_price + sell_price) % twoPow64) / 2

/-- One expired buy order of the sweep (lib.rs lines 636-653): remove it,
refund the undealt remainder (note: the source unlocks `unlock_amount`, not
`unlock_amount * price`) and archive it; `none` is the `unwrap` panic on a
missing trade. -/
def DexService.sweepBuyOne (s : DexService) (h : Hash) (o : Order) : Option DexService :=
  let s1 : DexService := { s with buy_orders := mapRemove h s.buy_orders }
  let unlock_amount :=
    match o.status with
    | .Fresh => o.amount
    | .Partial p => o.amount - p
    | .Full => 0
  let afterUnlock : Option DexService :=
    if unlock_amount ≠ 0 then
      match s1.trades o.trade_id with
      | none => none
      | some t => some (s1.unlock_asset ⟨t.base_asset, o.user, unlock_amount⟩).2
    else
      some s1
  afterUnlock.map fun s2 =>
    { s2 with history_orders := mapInsert o.tx_hash o s2.history_orders }

/-- One expired sell order of the sweep (lib.rs lines 661-678): the refund is
`unlock_amount` of the counter asset. -/
def DexService.sweepSellOne (s : DexService) (h : Hash) (o : Order) : Option DexService :=
  let s1 : DexService := { s with sell_orders := mapRemove h s.sell_orders }
  let unlock_amount :=
    match o.status with
    | .Fresh => o.amount
    | .Partial p => o.amount - p
    | .Full => 0
  let afterUnlock : Option DexService :=
    if unlock_amount ≠ 0 then
      match s1.trades o.trade_id with
      | none => none
      | some t => some (s1.unlock_asset ⟨t.counter_party, o.user, unlock_amount⟩).2
    else
      some s1
  afterUnlock.map fun s2 =>
    { s2 with history_orders := mapInsert o.tx_hash o s2.history_orders }

def DexService.sweepBuys : DexService → List (Hash × Order) → Option DexService
  | s, [] => some s
  | s, (h, o) :: rest =>
    match s.sweepBuyOne h o with
    | none => none
    | some s1 => DexService.sweepBuys s1 rest

def DexService.sweepSells : DexService → List (Hash × Order) → Option DexService
  | s, [] => some s
  | s, (h, o) :: rest =>
    match s.sweepSellOne h o with
    | none => none
    | some s1 => DexService.sweepSells s1 rest

/-- `DexService::remove_expiry_orders` (lib.rs lines 629-679): collect the
buy orders with `expiry < current_height`, process each, then the same for
the sell orders. -/
def DexService.remove_expiry_orders (s : DexService) (current_height : Nat) :
    Option DexService :=
  match s.sweepBuys (s.buy_orders.filter fun q => decide (q.2.expiry < current_height)) with
  | none => none
  | some s1 =>
    s1.sweepSells (s1.sell_orders.filter fun q => decide (q.2.expiry < current_height))

/-- Status shape of every order living in an active book: `Fresh`, or
`Partial v` with `v < amount`; never `Full`. -/
def statusOk (o : Order) : Prop :=
  o.status = .Fresh ∨ ∃ v, o.status = .Partial v ∧ v < o.amount

/-- Both active books hold only `statusOk` orders. -/
def booksOk (s : DexService) : Prop :=
  (∀ q ∈ s.buy_orders, statusOk q.2) ∧ (∀ q ∈ s.sell_orders, statusOk q.2)

deriving instance DecidableEq for Except

/-! Concrete states used to evaluate the code at specific inputs. -/

/-- The base asset of the example trade. -/
def aB : Asset := ⟨"b", "base", "B", 1000, "issuer"⟩

/-- The counter asset of the example trade. -/
def aC : Asset := ⟨"c", "counter", "C", 1000, "issuer"⟩

/-- An asset service with no assets and all balances zero. -/
def emptyAssetSvc : AssetService := ⟨fun _ => none, fun _ _ => ⟨0, 0⟩⟩

/-- A sample facade payload. -/
def pay1 : ModifyBalancePayload := ⟨"a", "u", 5⟩

/-- Asset service state for the transfer scenario: caller u1 holds 100, the
recipient u2 sits at the u64 maximum. -/
def c9A : AssetService :=
  { assets := fun a => if a = "a" then some ⟨"a", "Token", "T", 0, "issuer"⟩ else none
    balances := fun u a =>
      if u = "u1" ∧ a = "a" then ⟨100, 0⟩
      else if u = "u2" ∧ a = "a" then ⟨twoPow64 - 1, 0⟩
      else ⟨0, 0⟩ }

/-- A fresh buy order, price 4, amount 10, submitted at height 100 with
expiry 101 (the expiry-refund scenario of the spec). -/
def c2Order : Order := ⟨"t", "h1", .Buy, 4, 10, 100, "u1", 101, .Fresh, []⟩

/-- DEX state holding the expired buy order with its 40-unit escrow locked. -/
def c2Dex : DexService :=
  { trades := fun x => if x = "t" then some ⟨"t", "b", "c"⟩ else none
    buy_orders := [("h1", c2Order)]
    sell_orders := []
    history_orders := []
    validity := 5
    asset :=
      { assets := fun a => if a = "b" then some aB else if a = "c" then some aC else none
        balances := fun u a => if u = "u1" ∧ a = "b" then ⟨0, 40⟩ else ⟨0, 0⟩ } }

/-- Two sell orders with equal price 5 and heights 1 (older) and 2 (newer). -/
def c3SellOld : Order := ⟨"t", "h1", .Sell, 5, 10, 1, "u1", 100, .Fresh, []⟩

def c3SellNew : Order := ⟨"t", "h2", .Sell, 5, 10, 2, "u2", 100, .Fresh, []⟩

/-- Two buy orders with equal price 5 and heights 1 (older) and 2 (newer). -/
def c3BuyOld : Order := ⟨"t", "h3", .Buy, 5, 10, 1, "u1", 100, .Fresh, []⟩

def c3BuyNew : Order := ⟨"t", "h4", .Buy, 5, 10, 2, "u2", 100, .Fresh, []⟩

/-- DEX state with the trade admitted and a caller holding no balance. -/
def c4Dex : DexService :=
  { trades := fun x => if x = "t" then some ⟨"t", "b", "c"⟩ else none
    buy_orders := []
    sell_orders := []
    history_orders := []
    validity := 1000
    asset :=
      { assets := fun a => if a = "b" then some aB else if a = "c" then some aC else none
        balances := fun _ _ => ⟨0, 0⟩ } }

/-- Buy order payload whose escrow product overflows u64. -/
def c4Payload : OrderPayload := ⟨"t", .Buy, 2 ^ 32, 2 ^ 32, 100⟩

/-- A DEX state with no trades at all. -/
def c7Dex : DexService :=
  ⟨fun _ => none, [], [], [], 5, emptyAssetSvc⟩

/-- Buy order for the settlement scenario: reserved price 2, amount 1. -/
def buyO : Order := ⟨"t", "hb", .Buy, 2, 1, 100, "B", 200, .Fresh, []⟩

/-- Sell order for the settlement scenario: price 1, amount 5. -/
def sellO : Order := ⟨"t", "hs", .Sell, 1, 5, 100, "S", 200, .Fresh, []⟩

/-- DEX state before a settlement at deal price 1, deal amount 1: the buyer
holds the 2-unit escrow locked in base, the seller 5 units locked in counter. -/
def c1Dex : DexService :=
  { trades := fun x => if x = "t" then some ⟨"t", "b", "c"⟩ else none
    buy_orders := [("hb", buyO)]
    sell_orders := [("hs", sellO)]
    history_orders := []
    validity := 5
    asset :=
      { assets := fun a => if a = "b" then some aB else if a = "c" then some aC else none
        balances := fun u a =>
          if u = "B" ∧ a = "b" then ⟨5, 2⟩
          else if u = "S" ∧ a = "c" then ⟨0, 5⟩
          else ⟨0, 0⟩ } }

/-- A larger buy order (amount 5) used to exercise `settle_seller`. -/
def buyBig : Order := ⟨"t", "hb2", .Buy, 2, 5, 100, "B", 200, .Fresh, []⟩

/-- Fallback settlement result (never reached on the inputs used). -/
def dfltSettle : Except DexFail Order × DexService := (.error (.dex .JsonParse), c7Dex)

/-- The concrete result of a `settle_buyer` run used by witnesses. -/
def c10BuyRes : Except DexFail Order × DexService :=
  (c1Dex.settle_buyer 1 1 buyO sellO).getD dfltSettle

/-- The concrete result of a `settle_seller` run used by witnesses. -/
def c10SellRes : Except DexFail Order × DexService :=
  (c1Dex.settle_seller 1 1 buyBig sellO).getD dfltSettle

/-- The concrete result of an expiry sweep used by witnesses. -/
def c10SweepRes : DexService := (c2Dex.remove_expiry_orders 102).getD c7Dex

/-! Helper lemmas shared by the claim theorems. -/

theorem setBal_balances_same (s : AssetService) (u : Address) (a : Hash) (b : Balance) :
    (s.setBal u a b).balances u a = b := by
  simp [AssetService.setBal]

theorem setBal_balances_ne (s : AssetService) (u : Address) (a : Hash) (b : Balance)
    (u1 : Address) (a1 : Hash) (h : ¬(u1 = u ∧ a1 = a)) :
    (s.setBal u a b).balances u1 a1 = s.balances u1 a1 := by
  simp [AssetService.setBal, h]

theorem setBal_assets (s : AssetService) (u : Address) (a : Hash) (b : Balance) :
    (s.setBal u a b).assets = s.assets := rfl

/-- C5: on a missing id, `get_asset` reports the error through the
`AssetExisted` variant, so the surfaced code is 102 and not the
`AssetNotExist` code 103 the spec requires. -/
theorem get_asset_miss_code :
    emptyAssetSvc.get_asset "a" = .error (.AssetExisted "a") ∧
    (AssetError.AssetExisted "a").code = 102 ∧
    (AssetError.AssetExisted "a").code ≠ (AssetError.AssetNotExist "a").code := by
  refine ⟨rfl, rfl, by decide⟩

/-- C6 (counterexample): a facade call whose context carries no extra token
panics (`expect`), modelled as `none`; it does not return `PermissionDenial`
as the claim states. -/
theorem facade_no_token_panics :
    emptyAssetSvc.lock none pay1 = none ∧
    emptyAssetSvc.unlock none pay1 = none ∧
    emptyAssetSvc.add_value none pay1 = none ∧
    emptyAssetSvc.sub_value none pay1 = none ∧
    emptyAssetSvc.lock none pay1 ≠ some (.error .PermissionDenial, emptyAssetSvc) := by
  refine ⟨rfl, rfl, rfl, rfl, ?_⟩
  simp [AssetService.lock]

/-- C6 (amended): whenever the context carries an extra token different from
`ADMISSION_TOKEN`, all four privileged facade calls fail `PermissionDenial`
(code 106) and return the state unchanged; a context with no token at all
panics instead (see the counterexample). -/
theorem facade_wrong_token_permission_denial (s : AssetService) (e : String)
    (p : ModifyBalancePayload) (h : e ≠ ADMISSION_TOKEN) :
    s.lock (some e) p = some (.error .PermissionDenial, s) ∧
    s.unlock (some e) p = some (.error .PermissionDenial, s) ∧
    s.add_value (some e) p = some (.error .PermissionDenial, s) ∧
    s.sub_value (some e) p = some (.error .PermissionDenial, s) ∧
    AssetError.PermissionDenial.code = 106 := by
  refine ⟨?_, ?_, ?_, ?_, rfl⟩ <;>
    simp [AssetService.lock, AssetService.unlock, AssetService.add_value,
      AssetService.sub_value, h]

theorem facade_wrong_token_witness :
    emptyAssetSvc.lock (some "bad") pay1 = some (.error .PermissionDenial, emptyAssetSvc) ∧
    emptyAssetSvc.unlock (some "bad") pay1 = some (.error .PermissionDenial, emptyAssetSvc) ∧
    emptyAssetSvc.add_value (some "bad") pay1 = some (.error .PermissionDenial, emptyAssetSvc) ∧
    emptyAssetSvc.sub_value (some "bad") pay1 = some (.error .PermissionDenial, emptyAssetSvc) ∧
    AssetError.PermissionDenial.code = 106 :=
  facade_wrong_token_permission_denial emptyAssetSvc "bad" pay1 (by decide)

/-- C9: the transfer is not atomic inside the service state frame: with the
recipient at the u64 maximum, the debit of the caller succeeds, the credit
fails `U64Overflow`, the error is returned, and the caller stays debited
(100 became 50) while no one was credited. -/
theorem transfer_not_atomic :
    (c9A.transfer "u1" ⟨"a", "u2", 50⟩).1 = .error .U64Overflow ∧
    ((c9A.transfer "u1" ⟨"a", "u2", 50⟩).2.balances "u1" "a").current = 50 ∧
    ((c9A.transfer "u1" ⟨"a", "u2", 50⟩).2.balances "u2" "a").current = twoPow64 - 1 ∧
    (c9A.balances "u1" "a").current = 100 :=
  ⟨rfl, rfl, rfl, rfl⟩

/-- C2: sweeping the expired fresh buy order (price 4, amount 10) at height
102 removes it from the book and archives it, but unlocks only 10 units of
the base asset — the undealt `amount` — instead of the 40 (= amount * price)
units that were escrowed, leaving 30 units stuck in `locked`. -/
theorem expiry_sweep_refunds_amount_not_value :
    ((c2Dex.remove_expiry_orders 102).map fun t =>
      (t.asset.balances "u1" "b", mapGet "h1" t.buy_orders, mapGet "h1" t.history_orders))
      = some (⟨10, 30⟩, none, some c2Order) ∧
    c2Dex.asset.balances "u1" "b" = ⟨0, 40⟩ ∧
    (⟨10, 30⟩ : Balance) ≠ ⟨40, 0⟩ := by
  refine ⟨by decide, rfl, by decide⟩

/-- C3: at equal price the source compares heights with
`self.height.cmp(&other.height)`, so the order with the LOWER height compares
as less, not greater: the newer order sorts last and is popped first, the
opposite of price-time priority (shown for sells and for buys). -/
theorem order_cmp_equal_price_newer_greater :
    c3SellOld.partial_cmp c3SellNew = some .lt ∧
    c3SellNew.partial_cmp c3SellOld = some .gt ∧
    c3BuyOld.partial_cmp c3BuyNew = some .lt ∧
    c3BuyNew.partial_cmp c3BuyOld = some .gt := by
  decide

/-- C4: a buy order whose escrow product overflows u64 is not rejected with
`U64Overflow`: the product wraps to 0, the zero lock succeeds even for a
caller with no balance at all, and the order enters the book. -/
theorem order_escrow_mul_wraps :
    (c4Dex.order "u1" "h9" 100 c4Payload).1 = .ok () ∧
    mapGet "h9" ((c4Dex.order "u1" "h9" 100 c4Payload).2.buy_orders)
      = some ⟨"t", "h9", .Buy, 2 ^ 32, 2 ^ 32, 100, "u1", 100, .Fresh, []⟩ ∧
    (c4Dex.order "u1" "h9" 100 c4Payload).2.asset.balances "u1" "b" = ⟨0, 0⟩ ∧
    2 ^ 32 * 2 ^ 32 % twoPow64 = 0 ∧
    c4Dex.asset.balances "u1" "b" = ⟨0, 0⟩ := by
  decide

theorem addTradeId_comm (x y : Hash) (h : x ≠ y) : addTradeId x y = addTradeId y x := by
  unfold addTradeId
  rcases lt_trichotomy x y with hlt | heq | hgt
  · rw [if_pos hlt, if_neg (not_lt.mpr hlt.le)]
  · exact absurd heq h
  · rw [if_neg (not_lt.mpr hgt.le), if_pos hgt]

/-- C7: the canonical trade id is commutative in the two asset hashes, so
after `add_trade x y` succeeds, `add_trade y x` fails `TradeExisted`; and
`add_trade x x` fails `IllegalTrade`. -/
theorem add_trade_commutative :
    (∀ x y : Hash, x ≠ y → addTradeId x y = addTradeId y x) ∧
    (∀ (s : DexService) (x y : Hash), x ≠ y →
      (s.add_trade ⟨x, y⟩).1 = .ok () →
      ((s.add_trade ⟨x, y⟩).2.add_trade ⟨y, x⟩).1 = .error (.dex .TradeExisted)) ∧
    (∀ (s : DexService) (x : Hash), (s.add_trade ⟨x, x⟩).1 = .error (.dex .IllegalTrade)) := by
  refine ⟨addTradeId_comm, ?_, ?_⟩
  · intro s x y hxy hok
    by_cases hs : (s.trades (addTradeId x y)).isSome
    · exfalso
      simp [DexService.add_trade, hxy, hs] at hok
    · have h1 : (s.add_trade ⟨x, y⟩).2
          = { s with trades := fmInsert (addTradeId x y) ⟨addTradeId x y, x, y⟩ s.trades } := by
        simp [DexService.add_trade, hxy, hs]
      rw [h1]
      simp [DexService.add_trade, Ne.symm hxy, addTradeId_comm y x (Ne.symm hxy), fmInsert]
  · intro s x
    simp [DexService.add_trade]

theorem add_trade_commutative_witness :
    addTradeId "a" "b" = addTradeId "b" "a" ∧
    ((c7Dex.add_trade ⟨"a", "b"⟩).2.add_trade ⟨"b", "a"⟩).1 = .error (.dex .TradeExisted) ∧
    (c7Dex.add_trade ⟨"a", "a"⟩).1 = .error (.dex .IllegalTrade) :=
  ⟨add_trade_commutative.1 "a" "b" (by decide),
   add_trade_commutative.2.1 c7Dex "a" "b" (by decide) rfl,
   add_trade_commutative.2.2 c7Dex "a"⟩

/-- C8 (counterexample): with both prices 2^63 the unchecked u64 sum wraps
to 0 and the deal price becomes 0, not the mathematical quotient 2^63. -/
theorem deal_price_overflow_cex :
    deal_price (2 ^ 63) (2 ^ 63) = 0 ∧ (2 ^ 63 + 2 ^ 63) / 2 = 2 ^ 63 ∧
    deal_price (2 ^ 63) (2 ^ 63) ≠ (2 ^ 63 + 2 ^ 63) / 2 := by
  decide

/-- C8 (amended): provided the price sum does not overflow u64, the deal
price is the integer quotient (pb + ps) / 2 and, when the sum is odd, it sits
one closer to the smaller price than to the larger one. -/
theorem deal_price_mid_rule (pb ps : Nat) (hle : ps ≤ pb) (hov : pb + ps < twoPow64) :
    deal_price pb ps = (pb + ps) / 2 ∧
    ((pb + ps) % 2 = 1 → pb - deal_price pb ps = (deal_price pb ps - ps) + 1) := by
  have h1 : deal_price pb ps = (pb + ps) / 2 := by
    unfold deal_price
    rw [Nat.mod_eq_of_lt hov]
  refine ⟨h1, fun hodd => ?_⟩
  rw [h1]
  omega

theorem deal_price_mid_rule_witness :
    deal_price 5 2 = (5 + 2) / 2 ∧
    ((5 + 2) % 2 = 1 → 5 - deal_price 5 2 = (deal_price 5 2 - 2) + 1) :=
  deal_price_mid_rule 5 2 (by decide) (by decide)

/-! Success characterizations of the asset core operations. -/

theorem unlockCore_spec (s : AssetService) (p : ModifyBalancePayload)
    (ha : ¬ s.assets p.asset_id = none)
    (hl : p.value ≤ (s.balances p.user p.asset_id).locked)
    (hc : (s.balances p.user p.asset_id).current + p.value < twoPow64) :
    s.unlockCore p = (.ok (), s.setBal p.user p.asset_id
      ⟨(s.balances p.user p.asset_id).current + p.value,
       (s.balances p.user p.asset_id).locked - p.value⟩) := by
  simp only [AssetService.unlockCore, if_neg ha, if_neg (not_lt.mpr hl),
    if_neg (not_le.mpr hc), Nat.mod_eq_of_lt hc]

theorem add_value_impl_spec (s : AssetService) (p : ModifyBalancePayload)
    (ha : ¬ s.assets p.asset_id = none)
    (hc : (s.balances p.user p.asset_id).current + p.value < twoPow64) :
    s.add_value_impl p = (.ok (), s.setBal p.user p.asset_id
      ⟨(s.balances p.user p.asset_id).current + p.value,
       (s.balances p.user p.asset_id).locked⟩) := by
  simp only [AssetService.add_value_impl, if_neg ha, if_neg (not_le.mpr hc),
    Nat.mod_eq_of_lt hc]

theorem sub_value_impl_spec (s : AssetService) (p : ModifyBalancePayload)
    (ha : ¬ s.assets p.asset_id = none)
    (hl : p.value ≤ (s.balances p.user p.asset_id).current) :
    s.sub_value_impl p = (.ok (), s.setBal p.user p.asset_id
      ⟨(s.balances p.user p.asset_id).current - p.value,
       (s.balances p.user p.asset_id).locked⟩) := by
  simp only [AssetService.sub_value_impl, if_neg ha, if_neg (not_lt.mpr hl)]

/-! The DEX wrappers always pass the admission token, so each wrapper is the
corresponding core operation on the held asset state. -/

theorem unlock_asset_core (s : DexService) (p : ModifyAssetPayload) :
    s.unlock_asset p =
      ((s.asset.unlockCore ⟨p.asset_id, p.user, p.value⟩).1,
       { s with asset := (s.asset.unlockCore ⟨p.asset_id, p.user, p.value⟩).2 }) := by
  have hface : s.asset.unlock (some ADMISSION_TOKEN) ⟨p.asset_id, p.user, p.value⟩
      = some (s.asset.unlockCore ⟨p.asset_id, p.user, p.value⟩) := by
    simp [AssetService.unlock]
  unfold DexService.unlock_asset
  rw [hface]

theorem lock_asset_core (s : DexService) (p : ModifyAssetPayload) :
    s.lock_asset p =
      ((s.asset.lockCore ⟨p.asset_id, p.user, p.value⟩).1,
       { s with asset := (s.asset.lockCore ⟨p.asset_id, p.user, p.value⟩).2 }) := by
  have hface : s.asset.lock (some ADMISSION_TOKEN) ⟨p.asset_id, p.user, p.value⟩
      = some (s.asset.lockCore ⟨p.asset_id, p.user, p.value⟩) := by
    simp [AssetService.lock]
  unfold DexService.lock_asset
  rw [hface]

theorem add_value_core (s : DexService) (p : ModifyAssetPayload) :
    s.add_value p =
      ((s.asset.add_value_impl ⟨p.asset_id, p.user, p.value⟩).1,
       { s with asset := (s.asset.add_value_impl ⟨p.asset_id, p.user, p.value⟩).2 }) := by
  have hface : s.asset.add_value (some ADMISSION_TOKEN) ⟨p.asset_id, p.user, p.value⟩
      = some (s.asset.add_value_impl ⟨p.asset_id, p.user, p.value⟩) := by
    simp [AssetService.add_value]
  unfold DexService.add_value
  rw [hface]

theorem sub_value_core (s : DexService) (p : ModifyAssetPayload) :
    s.sub_value p =
      ((s.asset.sub_value_impl ⟨p.asset_id, p.user, p.value⟩).1,
       { s with asset := (s.asset.sub_value_impl ⟨p.asset_id, p.user, p.value⟩).2 }) := by
  have hface : s.asset.sub_value (some ADMISSION_TOKEN) ⟨p.asset_id, p.user, p.value⟩
      = some (s.asset.sub_value_impl ⟨p.asset_id, p.user, p.value⟩) := by
    simp [AssetService.sub_value]
  unfold DexService.sub_value
  rw [hface]

theorem settle_buyer_deltas (s : DexService) (p q dv : Nat) (b sl : Order) (t : Trade)
    (ht : s.trades b.trade_id = some t)
    (hbc : t.base_asset ≠ t.counter_party)
    (hus : b.user ≠ sl.user)
    (hqpb : q * b.price < twoPow64)
    (hple : p ≤ b.price)
    (hab : ¬ s.asset.assets t.base_asset = none)
    (hac : ¬ s.asset.assets t.counter_party = none)
    (hblocked : q * b.price ≤ (s.asset.balances b.user t.base_asset).locked)
    (hbcur : (s.asset.balances b.user t.base_asset).current + q * b.price < twoPow64)
    (hbc2 : (s.asset.balances b.user t.counter_party).current + q < twoPow64)
    (hslocked : q ≤ (s.asset.balances sl.user t.counter_party).locked)
    (hscur : (s.asset.balances sl.user t.counter_party).current + q < twoPow64)
    (hsb : (s.asset.balances sl.user t.base_asset).current + q * p < twoPow64)
    (hdealt : sl.status.dealtAmount = some dv) :
    (s.settle_buyer p q b sl).map (fun pr =>
      ((pr.2.asset.balances b.user t.base_asset).current,
       (pr.2.asset.balances b.user t.base_asset).locked,
       (pr.2.asset.balances b.user t.counter_party).current,
       (pr.2.asset.balances b.user t.counter_party).locked,
       (pr.2.asset.balances sl.user t.base_asset).current,
       (pr.2.asset.balances sl.user t.base_asset).locked,
       (pr.2.asset.balances sl.user t.counter_party).current,
       (pr.2.asset.balances sl.user t.counter_party).locked))
    = some
      ((s.asset.balances b.user t.base_asset).current + q * b.price - q * p,
       (s.asset.balances b.user t.base_asset).locked - q * b.price,
       (s.asset.balances b.user t.counter_party).current + q,
       (s.asset.balances b.user t.counter_party).locked,
       (s.asset.balances sl.user t.base_asset).current + q * p,
       (s.asset.balances sl.user t.base_asset).locked,
       (s.asset.balances sl.user t.counter_party).current,
       (s.asset.balances sl.user t.counter_party).locked - q) := by
  have hqp : q * p < twoPow64 := lt_of_le_of_lt (Nat.mul_le_mul_left q hple) hqpb
  have hgt : s.get_trade b.trade_id = Except.ok t := by
    unfold DexService.get_trade
    rw [ht]
  have f1 : ¬((s.asset.balances b.user t.base_asset).locked < q * b.price) :=
    not_lt.mpr hblocked
  have f2 : ¬(twoPow64 ≤ (s.asset.balances b.user t.base_asset).current + q * b.price) :=
    not_le.mpr hbcur
  have f3 : ¬(twoPow64 ≤ (s.asset.balances b.user t.counter_party).current + q) :=
    not_le.mpr hbc2
  have f4 : ¬((s.asset.balances b.user t.base_asset).current + q * b.price < q * p) :=
    not_lt.mpr (le_trans (Nat.mul_le_mul_left q hple) (Nat.le_add_left _ _))
  have f5 : ¬((s.asset.balances sl.user t.counter_party).locked < q) :=
    not_lt.mpr hslocked
  have f6 : ¬(twoPow64 ≤ (s.asset.balances sl.user t.counter_party).current + q) :=
    not_le.mpr hscur
  have f7 : ¬(twoPow64 ≤ (s.asset.balances sl.user t.base_asset).current + q * p) :=
    not_le.mpr hsb
  have f8 : ¬((s.asset.balances sl.user t.counter_party).current + q < q) :=
    not_lt.mpr (Nat.le_add_left q _)
  have hbc1 : t.counter_party ≠ t.base_asset := Ne.symm hbc
  have hus1 : sl.user ≠ b.user := Ne.symm hus
  simp [DexService.settle_buyer, hgt, unlock_asset_core, add_value_core, sub_value_core,
    AssetService.unlockCore, AssetService.add_value_impl, AssetService.sub_value_impl,
    setBal_assets, setBal_balances_same, setBal_balances_ne,
    Nat.mod_eq_of_lt hqpb, Nat.mod_eq_of_lt hqp, Nat.mod_eq_of_lt hbcur,
    Nat.mod_eq_of_lt hbc2, Nat.mod_eq_of_lt hscur, Nat.mod_eq_of_lt hsb,
    hab, hac, f1, f2, f3, f4, f5, f6, f7, f8, hbc, hbc1, hus, hus1, hdealt]

theorem settle_both_deltas (s : DexService) (p q : Nat) (b sl : Order) (t : Trade)
    (ht : s.trades b.trade_id = some t)
    (hbc : t.base_asset ≠ t.counter_party)
    (hus : b.user ≠ sl.user)
    (hqpb : q * b.price < twoPow64)
    (hple : p ≤ b.price)
    (hab : ¬ s.asset.assets t.base_asset = none)
    (hac : ¬ s.asset.assets t.counter_party = none)
    (hblocked : q * b.price ≤ (s.asset.balances b.user t.base_asset).locked)
    (hbcur : (s.asset.balances b.user t.base_asset).current + q * b.price < twoPow64)
    (hbc2 : (s.asset.balances b.user t.counter_party).current + q < twoPow64)
    (hslocked : q ≤ (s.asset.balances sl.user t.counter_party).locked)
    (hscur : (s.asset.balances sl.user t.counter_party).current + q < twoPow64)
    (hsb : (s.asset.balances sl.user t.base_asset).current + q * p < twoPow64) :
    (s.settle_both p q b sl).1 = .ok () ∧
    (((s.settle_both p q b sl).2.asset.balances b.user t.base_asset).current,
     ((s.settle_both p q b sl).2.asset.balances b.user t.base_asset).locked,
     ((s.settle_both p q b sl).2.asset.balances b.user t.counter_party).current,
     ((s.settle_both p q b sl).2.asset.balances b.user t.counter_party).locked,
     ((s.settle_both p q b sl).2.asset.balances sl.user t.base_asset).current,
     ((s.settle_both p q b sl).2.asset.balances sl.user t.base_asset).locked,
     ((s.settle_both p q b sl).2.asset.balances sl.user t.counter_party).current,
     ((s.settle_both p q b sl).2.asset.balances sl.user t.counter_party).locked)
    = ((s.asset.balances b.user t.base_asset).current + q * b.price - q * p,
       (s.asset.balances b.user t.base_asset).locked - q * b.price,
       (s.asset.balances b.user t.counter_party).current + q,
       (s.asset.balances b.user t.counter_party).locked,
       (s.asset.balances sl.user t.base_asset).current + q * p,
       (s.asset.balances sl.user t.base_asset).locked,
       (s.asset.balances sl.user t.counter_party).current,
       (s.asset.balances sl.user t.counter_party).locked - q) := by
  have hqp : q * p < twoPow64 := lt_of_le_of_lt (Nat.mul_le_mul_left q hple) hqpb
  have hgt : s.get_trade b.trade_id = Except.ok t := by
    unfold DexService.get_trade
    rw [ht]
  have f1 : ¬((s.asset.balances b.user t.base_asset).locked < q * b.price) :=
    not_lt.mpr hblocked
  have f2 : ¬(twoPow64 ≤ (s.asset.balances b.user t.base_asset).current + q * b.price) :=
    not_le.mpr hbcur
  have f3 : ¬(twoPow64 ≤ (s.asset.balances b.user t.counter_party).current + q) :=
    not_le.mpr hbc2
  have f4 : ¬((s.asset.balances b.user t.base_asset).current + q * b.price < q * p) :=
    not_lt.mpr (le_trans (Nat.mul_le_mul_left q hple) (Nat.le_add_left _ _))
  have f5 : ¬((s.asset.balances sl.user t.counter_party).locked < q) :=
    not_lt.mpr hslocked
  have f6 : ¬(twoPow64 ≤ (s.asset.balances sl.user t.counter_party).current + q) :=
    not_le.mpr hscur
  have f7 : ¬(twoPow64 ≤ (s.asset.balances sl.user t.base_asset).current + q * p) :=
    not_le.mpr hsb
  have f8 : ¬((s.asset.balances sl.user t.counter_party).current + q < q) :=
    not_lt.mpr (Nat.le_add_left q _)
  have hbc1 : t.counter_party ≠ t.base_asset := Ne.symm hbc
  have hus1 : sl.user ≠ b.user := Ne.symm hus
  constructor <;>
  simp [DexService.settle_both, hgt, unlock_asset_core, add_value_core, sub_value_core,
    AssetService.unlockCore, AssetService.add_value_impl, AssetService.sub_value_impl,
    setBal_assets, setBal_balances_same, setBal_balances_ne,
    Nat.mod_eq_of_lt hqpb, Nat.mod_eq_of_lt hqp, Nat.mod_eq_of_lt hbcur,
    Nat.mod_eq_of_lt hbc2, Nat.mod_eq_of_lt hscur, Nat.mod_eq_of_lt hsb,
    hab, hac, f1, f2, f3, f4, f5, f6, f7, f8, hbc, hbc1, hus, hus1]

/-- C1 (counterexample): with q = 1, deal price p = 1, buyer reserved price
pb = 2 and the buyer holding current 5 and locked 2 in base, the successful
settlement leaves the buyer's current base balance at 6 = 5 + q*(pb − p),
not at 5 − q*p = 4 as the claim states. -/
theorem settle_buyer_current_base_cex :
    ((c1Dex.settle_buyer 1 1 buyO sellO).map fun pr =>
      (pr.2.asset.balances "B" "b").current) = some 6 ∧
    (c1Dex.asset.balances "B" "b").current = 5 ∧
    ((c1Dex.settle_buyer 1 1 buyO sellO).map fun pr =>
      (pr.2.asset.balances "B" "b").current) ≠ some (5 - 1 * 1) := by
  refine ⟨by decide, rfl, by decide⟩

/-- C1 (amended): for every successful settlement of a deal with amount q
and deal price p ≤ pb between distinct buyer B (reserved price pb) and
seller S on a trade with distinct assets (base, counter), with no u64
overflow in the products, the facade calls of `settle_buyer` and of
`settle_both` net exactly to Δcurrent[B, base] = +q*(pb − p) (the escrow
q*pb returns to current and q*p is paid out of it), Δlocked[B, base] =
−q*pb, Δcurrent[B, counter] = +q, Δcurrent[S, base] = +q*p,
Δcurrent[S, counter] = 0, Δlocked[S, counter] = −q; equivalently the
buyer's total base holdings (current + locked) drop by exactly q*p. -/
theorem settlement_deltas (s : DexService) (p q dv : Nat) (b sl : Order) (t : Trade)
    (ht : s.trades b.trade_id = some t)
    (hbc : t.base_asset ≠ t.counter_party)
    (hus : b.user ≠ sl.user)
    (hqpb : q * b.price < twoPow64)
    (hple : p ≤ b.price)
    (hab : ¬ s.asset.assets t.base_asset = none)
    (hac : ¬ s.asset.assets t.counter_party = none)
    (hblocked : q * b.price ≤ (s.asset.balances b.user t.base_asset).locked)
    (hbcur : (s.asset.balances b.user t.base_asset).current + q * b.price < twoPow64)
    (hbc2 : (s.asset.balances b.user t.counter_party).current + q < twoPow64)
    (hslocked : q ≤ (s.asset.balances sl.user t.counter_party).locked)
    (hscur : (s.asset.balances sl.user t.counter_party).current + q < twoPow64)
    (hsb : (s.asset.balances sl.user t.base_asset).current + q * p < twoPow64)
    (hdealt : sl.status.dealtAmount = some dv) :
    ((s.settle_buyer p q b sl).map (fun pr =>
      ((pr.2.asset.balances b.user t.base_asset).current,
       (pr.2.asset.balances b.user t.base_asset).locked,
       (pr.2.asset.balances b.user t.counter_party).current,
       (pr.2.asset.balances b.user t.counter_party).locked,
       (pr.2.asset.balances sl.user t.base_asset).current,
       (pr.2.asset.balances sl.user t.base_asset).locked,
       (pr.2.asset.balances sl.user t.counter_party).current,
       (pr.2.asset.balances sl.user t.counter_party).locked))
    = some
      ((s.asset.balances b.user t.base_asset).current + q * b.price - q * p,
       (s.asset.balances b.user t.base_asset).locked - q * b.price,
       (s.asset.balances b.user t.counter_party).current + q,
       (s.asset.balances b.user t.counter_party).locked,
       (s.asset.balances sl.user t.base_asset).current + q * p,
       (s.asset.balances sl.user t.base_asset).locked,
       (s.asset.balances sl.user t.counter_party).current,
       (s.asset.balances sl.user t.counter_party).locked - q)) ∧
    ((s.settle_both p q b sl).1 = .ok () ∧
    (((s.settle_both p q b sl).2.asset.balances b.user t.base_asset).current,
     ((s.settle_both p q b sl).2.asset.balances b.user t.base_asset).locked,
     ((s.settle_both p q b sl).2.asset.balances b.user t.counter_party).current,
     ((s.settle_both p q b sl).2.asset.balances b.user t.counter_party).locked,
     ((s.settle_both p q b sl).2.asset.balances sl.user t.base_asset).current,
     ((s.settle_both p q b sl).2.asset.balances sl.user t.base_asset).locked,
     ((s.settle_both p q b sl).2.asset.balances sl.user t.counter_party).current,
     ((s.settle_both p q b sl).2.asset.balances sl.user t.counter_party).locked)
    = ((s.asset.balances b.user t.base_asset).current + q * b.price - q * p,
       (s.asset.balances b.user t.base_asset).locked - q * b.price,
       (s.asset.balances b.user t.counter_party).current + q,
       (s.asset.balances b.user t.counter_party).locked,
       (s.asset.balances sl.user t.base_asset).current + q * p,
       (s.asset.balances sl.user t.base_asset).locked,
       (s.asset.balances sl.user t.counter_party).current,
       (s.asset.balances sl.user t.counter_party).locked - q)) :=
  ⟨settle_buyer_deltas s p q dv b sl t ht hbc hus hqpb hple hab hac hblocked hbcur hbc2
    hslocked hscur hsb hdealt,
   settle_both_deltas s p q b sl t ht hbc hus hqpb hple hab hac hblocked hbcur hbc2
    hslocked hscur hsb⟩

theorem settlement_deltas_witness :
    ((c1Dex.settle_buyer 1 1 buyO sellO).map (fun pr =>
      ((pr.2.asset.balances "B" "b").current,
       (pr.2.asset.balances "B" "b").locked,
       (pr.2.asset.balances "B" "c").current,
       (pr.2.asset.balances "B" "c").locked,
       (pr.2.asset.balances "S" "b").current,
       (pr.2.asset.balances "S" "b").locked,
       (pr.2.asset.balances "S" "c").current,
       (pr.2.asset.balances "S" "c").locked))
    = some (6, 0, 1, 0, 1, 0, 0, 4)) ∧
    ((c1Dex.settle_both 1 1 buyO sellO).1 = .ok () ∧
    (((c1Dex.settle_both 1 1 buyO sellO).2.asset.balances "B" "b").current,
     ((c1Dex.settle_both 1 1 buyO sellO).2.asset.balances "B" "b").locked,
     ((c1Dex.settle_both 1 1 buyO sellO).2.asset.balances "B" "c").current,
     ((c1Dex.settle_both 1 1 buyO sellO).2.asset.balances "B" "c").locked,
     ((c1Dex.settle_both 1 1 buyO sellO).2.asset.balances "S" "b").current,
     ((c1Dex.settle_both 1 1 buyO sellO).2.asset.balances "S" "b").locked,
     ((c1Dex.settle_both 1 1 buyO sellO).2.asset.balances "S" "c").current,
     ((c1Dex.settle_both 1 1 buyO sellO).2.asset.balances "S" "c").locked)
    = (6, 0, 1, 0, 1, 0, 0, 4)) :=
  settlement_deltas c1Dex 1 1 0 buyO sellO ⟨"t", "b", "c"⟩ rfl (by decide) (by decide)
    (by decide) (by decide) (by decide) (by decide) (by decide) (by decide) (by decide)
    (by decide) (by decide) (by decide) rfl

/-! Order-book membership and frame lemmas for the status invariant. -/

theorem mem_mapRemove {x : Hash × Order} {k : Hash} {m : List (Hash × Order)}
    (h : x ∈ mapRemove k m) : x ∈ m := by
  unfold mapRemove at h
  exact (List.mem_filter.mp h).1

theorem mem_mapInsert {x : Hash × Order} {k : Hash} {v : Order} {m : List (Hash × Order)}
    (h : x ∈ mapInsert k v m) : x = (k, v) ∨ x ∈ m := by
  unfold mapInsert at h
  rcases List.mem_cons.mp h with h1 | h1
  · exact Or.inl h1
  · exact Or.inr (mem_mapRemove h1)

theorem lock_asset_books (s s1 : DexService) (p : ModifyAssetPayload)
    (r : Except AssetError Unit) (h : s.lock_asset p = (r, s1)) :
    s1.buy_orders = s.buy_orders ∧ s1.sell_orders = s.sell_orders := by
  have h2 := congrArg Prod.snd h
  rw [lock_asset_core] at h2
  subst h2
  exact ⟨rfl, rfl⟩

theorem unlock_asset_books (s s1 : DexService) (p : ModifyAssetPayload)
    (r : Except AssetError Unit) (h : s.unlock_asset p = (r, s1)) :
    s1.buy_orders = s.buy_orders ∧ s1.sell_orders = s.sell_orders := by
  have h2 := congrArg Prod.snd h
  rw [unlock_asset_core] at h2
  subst h2
  exact ⟨rfl, rfl⟩

theorem add_value_books (s s1 : DexService) (p : ModifyAssetPayload)
    (r : Except AssetError Unit) (h : s.add_value p = (r, s1)) :
    s1.buy_orders = s.buy_orders ∧ s1.sell_orders = s.sell_orders := by
  have h2 := congrArg Prod.snd h
  rw [add_value_core] at h2
  subst h2
  exact ⟨rfl, rfl⟩

theorem sub_value_books (s s1 : DexService) (p : ModifyAssetPayload)
    (r : Except AssetError Unit) (h : s.sub_value p = (r, s1)) :
    s1.buy_orders = s.buy_orders ∧ s1.sell_orders = s.sell_orders := by
  have h2 := congrArg Prod.snd h
  rw [sub_value_core] at h2
  subst h2
  exact ⟨rfl, rfl⟩

theorem order_preserves_booksOk (s : DexService) (caller : Address) (txh : Hash)
    (h : Nat) (p : OrderPayload) (hok : booksOk s) :
    booksOk (s.order caller txh h p).2 := by
  obtain ⟨hb, hs⟩ := hok
  unfold DexService.order
  split
  · exact ⟨hb, hs⟩
  split
  · exact ⟨hb, hs⟩
  split
  · -- Buy
    split
    · exact ⟨hb, hs⟩
    · dsimp only
      split
      · rename_i e s1 hlk
        obtain ⟨hb1, hs1⟩ := lock_asset_books _ _ _ _ hlk
        exact ⟨fun x hx => hb x (hb1 ▸ hx), fun x hx => hs x (hs1 ▸ hx)⟩
      · rename_i u s1 hlk
        obtain ⟨hb1, hs1⟩ := lock_asset_books _ _ _ _ hlk
        constructor
        · intro x hx
          rcases mem_mapInsert hx with h1 | h1
          · subst h1
            exact Or.inl rfl
          · exact hb x (hb1 ▸ h1)
        · exact fun x hx => hs x (hs1 ▸ hx)
  · -- Sell
    split
    · exact ⟨hb, hs⟩
    · dsimp only
      split
      · rename_i e s1 hlk
        obtain ⟨hb1, hs1⟩ := lock_asset_books _ _ _ _ hlk
        exact ⟨fun x hx => hb x (hb1 ▸ hx), fun x hx => hs x (hs1 ▸ hx)⟩
      · rename_i u s1 hlk
        obtain ⟨hb1, hs1⟩ := lock_asset_books _ _ _ _ hlk
        constructor
        · exact fun x hx => hb x (hb1 ▸ hx)
        · intro x hx
          rcases mem_mapInsert hx with h1 | h1
          · subst h1
            exact Or.inl rfl
          · exact hs x (hs1 ▸ h1)

theorem settle_buyer_preserves_booksOk (s : DexService) (dp q : Nat) (b sl : Order)
    (r : Except DexFail Order) (s1 : DexService)
    (heq : s.settle_buyer dp q b sl = some (r, s1))
    (hok : booksOk s)
    (hq : ∀ dv, sl.status.dealtAmount = some dv → dv + q < sl.amount) :
    booksOk s1 := by
  obtain ⟨hb, hs⟩ := hok
  unfold DexService.settle_buyer at heq
  split at heq
  · simp only [Option.some.injEq, Prod.mk.injEq] at heq
    exact heq.2 ▸ ⟨hb, hs⟩
  rename_i trade hgt
  split at heq
  · rename_i e sA hA
    simp only [Option.some.injEq, Prod.mk.injEq] at heq
    obtain ⟨hbA, hsA⟩ := unlock_asset_books _ _ _ _ hA
    exact heq.2 ▸ ⟨fun x hx => hb x (hbA ▸ hx), fun x hx => hs x (hsA ▸ hx)⟩
  rename_i uA sA hA
  obtain ⟨hbA, hsA⟩ := unlock_asset_books _ _ _ _ hA
  split at heq
  · rename_i e sB hB
    simp only [Option.some.injEq, Prod.mk.injEq] at heq
    obtain ⟨hbB, hsB⟩ := add_value_books _ _ _ _ hB
    exact heq.2 ▸ ⟨fun x hx => hb x (hbA ▸ hbB ▸ hx), fun x hx => hs x (hsA ▸ hsB ▸ hx)⟩
  rename_i uB sB hB
  obtain ⟨hbB, hsB⟩ := add_value_books _ _ _ _ hB
  split at heq
  · rename_i e sC hC
    simp only [Option.some.injEq, Prod.mk.injEq] at heq
    obtain ⟨hbC, hsC⟩ := sub_value_books _ _ _ _ hC
    exact heq.2 ▸
      ⟨fun x hx => hb x (hbA ▸ hbB ▸ hbC ▸ hx), fun x hx => hs x (hsA ▸ hsB ▸ hsC ▸ hx)⟩
  rename_i uC sC hC
  obtain ⟨hbC, hsC⟩ := sub_value_books _ _ _ _ hC
  split at heq
  · rename_i e sD hD
    simp only [Option.some.injEq, Prod.mk.injEq] at heq
    obtain ⟨hbD, hsD⟩ := unlock_asset_books _ _ _ _ hD
    exact heq.2 ▸
      ⟨fun x hx => hb x (hbA ▸ hbB ▸ hbC ▸ hbD ▸ hx),
       fun x hx => hs x (hsA ▸ hsB ▸ hsC ▸ hsD ▸ hx)⟩
  rename_i uD sD hD
  obtain ⟨hbD, hsD⟩ := unlock_asset_books _ _ _ _ hD
  split at heq
  · rename_i e sE hE
    simp only [Option.some.injEq, Prod.mk.injEq] at heq
    obtain ⟨hbE, hsE⟩ := add_value_books _ _ _ _ hE
    exact heq.2 ▸
      ⟨fun x hx => hb x (hbA ▸ hbB ▸ hbC ▸ hbD ▸ hbE ▸ hx),
       fun x hx => hs x (hsA ▸ hsB ▸ hsC ▸ hsD ▸ hsE ▸ hx)⟩
  rename_i uE sE hE
  obtain ⟨hbE, hsE⟩ := add_value_books _ _ _ _ hE
  split at heq
  · rename_i e sF hF
    simp only [Option.some.injEq, Prod.mk.injEq] at heq
    obtain ⟨hbF, hsF⟩ := sub_value_books _ _ _ _ hF
    exact heq.2 ▸
      ⟨fun x hx => hb x (hbA ▸ hbB ▸ hbC ▸ hbD ▸ hbE ▸ hbF ▸ hx),
       fun x hx => hs x (hsA ▸ hsB ▸ hsC ▸ hsD ▸ hsE ▸ hsF ▸ hx)⟩
  rename_i uF sF hF
  obtain ⟨hbF, hsF⟩ := sub_value_books _ _ _ _ hF
  have hbuy : sF.buy_orders = s.buy_orders := by
    rw [hbF, hbE, hbD, hbC, hbB, hbA]
  have hsell : sF.sell_orders = s.sell_orders := by
    rw [hsF, hsE, hsD, hsC, hsB, hsA]
  split at heq
  · exact absurd heq (by simp)
  rename_i dealt hd
  simp only [Option.some.injEq, Prod.mk.injEq] at heq
  obtain ⟨-, h2⟩ := heq
  subst h2
  constructor
  · intro x hx
    exact hb x (hbuy ▸ mem_mapRemove hx)
  · intro x hx
    rcases mem_mapInsert hx with h1 | h1
    · subst h1
      exact Or.inr ⟨dealt + q, rfl, hq dealt hd⟩
    · exact hs x (hsell ▸ h1)

theorem settle_seller_preserves_booksOk (s : DexService) (dp q : Nat) (b sl : Order)
    (r : Except DexFail Order) (s1 : DexService)
    (heq : s.settle_seller dp q b sl = some (r, s1))
    (hok : booksOk s)
    (hq : ∀ dv, b.status.dealtAmount = some dv → dv + q < b.amount) :
    booksOk s1 := by
  obtain ⟨hb, hs⟩ := hok
  unfold DexService.settle_seller at heq
  split at heq
  · simp only [Option.some.injEq, Prod.mk.injEq] at heq
    exact heq.2 ▸ ⟨hb, hs⟩
  rename_i trade hgt
  split at heq
  · rename_i e sA hA
    simp only [Option.some.injEq, Prod.mk.injEq] at heq
    obtain ⟨hbA, hsA⟩ := unlock_asset_books _ _ _ _ hA
    exact heq.2 ▸ ⟨fun x hx => hb x (hbA ▸ hx), fun x hx => hs x (hsA ▸ hx)⟩
  rename_i uA sA hA
  obtain ⟨hbA, hsA⟩ := unlock_asset_books _ _ _ _ hA
  split at heq
  · rename_i e sB hB
    simp only [Option.some.injEq, Prod.mk.injEq] at heq
    obtain ⟨hbB, hsB⟩ := add_value_books _ _ _ _ hB
    exact heq.2 ▸ ⟨fun x hx => hb x (hbA ▸ hbB ▸ hx), fun x hx => hs x (hsA ▸ hsB ▸ hx)⟩
  rename_i uB sB hB
  obtain ⟨hbB, hsB⟩ := add_value_books _ _ _ _ hB
  split at heq
  · rename_i e sC hC
    simp only [Option.some.injEq, Prod.mk.injEq] at heq
    obtain ⟨hbC, hsC⟩ := sub_value_books _ _ _ _ hC
    exact heq.2 ▸
      ⟨fun x hx => hb x (hbA ▸ hbB ▸ hbC ▸ hx), fun x hx => hs x (hsA ▸ hsB ▸ hsC ▸ hx)⟩
  rename_i uC sC hC
  obtain ⟨hbC, hsC⟩ := sub_value_books _ _ _ _ hC
  split at heq
  · rename_i e sD hD
    simp only [Option.some.injEq, Prod.mk.injEq] at heq
    obtain ⟨hbD, hsD⟩ := unlock_asset_books _ _ _ _ hD
    exact heq.2 ▸
      ⟨fun x hx => hb x (hbA ▸ hbB ▸ hbC ▸ hbD ▸ hx),
       fun x hx => hs x (hsA ▸ hsB ▸ hsC ▸ hsD ▸ hx)⟩
  rename_i uD sD hD
  obtain ⟨hbD, hsD⟩ := unlock_asset_books _ _ _ _ hD
  split at heq
  · rename_i e sE hE
    simp only [Option.some.injEq, Prod.mk.injEq] at heq
    obtain ⟨hbE, hsE⟩ := add_value_books _ _ _ _ hE
    exact heq.2 ▸
      ⟨fun x hx => hb x (hbA ▸ hbB ▸ hbC ▸ hbD ▸ hbE ▸ hx),
       fun x hx => hs x (hsA ▸ hsB ▸ hsC ▸ hsD ▸ hsE ▸ hx)⟩
  rename_i uE sE hE
  obtain ⟨hbE, hsE⟩ := add_value_books _ _ _ _ hE
  split at heq
  · rename_i e sF hF
    simp only [Option.some.injEq, Prod.mk.injEq] at heq
    obtain ⟨hbF, hsF⟩ := sub_value_books _ _ _ _ hF
    exact heq.2 ▸
      ⟨fun x hx => hb x (hbA ▸ hbB ▸ hbC ▸ hbD ▸ hbE ▸ hbF ▸ hx),
       fun x hx => hs x (hsA ▸ hsB ▸ hsC ▸ hsD ▸ hsE ▸ hsF ▸ hx)⟩
  rename_i uF sF hF
  obtain ⟨hbF, hsF⟩ := sub_value_books _ _ _ _ hF
  have hbuy : sF.buy_orders = s.buy_orders := by
    rw [hbF, hbE, hbD, hbC, hbB, hbA]
  have hsell : sF.sell_orders = s.sell_orders := by
    rw [hsF, hsE, hsD, hsC, hsB, hsA]
  split at heq
  · exact absurd heq (by simp)
  rename_i dealt hd
  simp only [Option.some.injEq, Prod.mk.injEq] at heq
  obtain ⟨-, h2⟩ := heq
  subst h2
  constructor
  · intro x hx
    rcases mem_mapInsert hx with h1 | h1
    · subst h1
      exact Or.inr ⟨dealt + q, rfl, hq dealt hd⟩
    · exact hb x (hbuy ▸ h1)
  · intro x hx
    exact hs x (hsell ▸ mem_mapRemove hx)

theorem settle_both_preserves_booksOk (s : DexService) (dp q : Nat) (b sl : Order)
    (hok : booksOk s) : booksOk (s.settle_both dp q b sl).2 := by
  obtain ⟨hb, hs⟩ := hok
  unfold DexService.settle_both
  split
  · exact ⟨hb, hs⟩
  rename_i trade hgt
  split
  · rename_i e sA hA
    obtain ⟨hbA, hsA⟩ := unlock_asset_books _ _ _ _ hA
    exact ⟨fun x hx => hb x (hbA ▸ hx), fun x hx => hs x (hsA ▸ hx)⟩
  rename_i uA sA hA
  obtain ⟨hbA, hsA⟩ := unlock_asset_books _ _ _ _ hA
  split
  · rename_i e sB hB
    obtain ⟨hbB, hsB⟩ := add_value_books _ _ _ _ hB
    exact ⟨fun x hx => hb x (hbA ▸ hbB ▸ hx), fun x hx => hs x (hsA ▸ hsB ▸ hx)⟩
  rename_i uB sB hB
  obtain ⟨hbB, hsB⟩ := add_value_books _ _ _ _ hB
  split
  · rename_i e sC hC
    obtain ⟨hbC, hsC⟩ := sub_value_books _ _ _ _ hC
    exact ⟨fun x hx => hb x (hbA ▸ hbB ▸ hbC ▸ hx),
           fun x hx => hs x (hsA ▸ hsB ▸ hsC ▸ hx)⟩
  rename_i uC sC hC
  obtain ⟨hbC, hsC⟩ := sub_value_books _ _ _ _ hC
  split
  · rename_i e sD hD
    obtain ⟨hbD, hsD⟩ := unlock_asset_books _ _ _ _ hD
    exact ⟨fun x hx => hb x (hbA ▸ hbB ▸ hbC ▸ hbD ▸ hx),
           fun x hx => hs x (hsA ▸ hsB ▸ hsC ▸ hsD ▸ hx)⟩
  rename_i uD sD hD
  obtain ⟨hbD, hsD⟩ := unlock_asset_books _ _ _ _ hD
  split
  · rename_i e sE hE
    obtain ⟨hbE, hsE⟩ := add_value_books _ _ _ _ hE
    exact ⟨fun x hx => hb x (hbA ▸ hbB ▸ hbC ▸ hbD ▸ hbE ▸ hx),
           fun x hx => hs x (hsA ▸ hsB ▸ hsC ▸ hsD ▸ hsE ▸ hx)⟩
  rename_i uE sE hE
  obtain ⟨hbE, hsE⟩ := add_value_books _ _ _ _ hE
  split
  · rename_i e sF hF
    obtain ⟨hbF, hsF⟩ := sub_value_books _ _ _ _ hF
    exact ⟨fun x hx => hb x (hbA ▸ hbB ▸ hbC ▸ hbD ▸ hbE ▸ hbF ▸ hx),
           fun x hx => hs x (hsA ▸ hsB ▸ hsC ▸ hsD ▸ hsE ▸ hsF ▸ hx)⟩
  rename_i uF sF hF
  obtain ⟨hbF, hsF⟩ := sub_value_books _ _ _ _ hF
  have hbuy : sF.buy_orders = s.buy_orders := by
    rw [hbF, hbE, hbD, hbC, hbB, hbA]
  have hsell : sF.sell_orders = s.sell_orders := by
    rw [hsF, hsE, hsD, hsC, hsB, hsA]
  constructor
  · intro x hx
    exact hb x (hbuy ▸ mem_mapRemove hx)
  · intro x hx
    exact hs x (hsell ▸ mem_mapRemove hx)

theorem sweepBuyOne_books (s s1 : DexService) (hsh : Hash) (o : Order)
    (heq : s.sweepBuyOne hsh o = some s1) :
    s1.buy_orders = mapRemove hsh s.buy_orders ∧ s1.sell_orders = s.sell_orders := by
  unfold DexService.sweepBuyOne at heq
  rw [Option.map_eq_some'] at heq
  obtain ⟨s2, h2, h3⟩ := heq
  subst h3
  split at h2
  · split at h2
    · cases h2
    · rename_i t htr
      rcases hun : DexService.unlock_asset _ _ with ⟨ru, su⟩
      rw [hun] at h2
      obtain ⟨hbu, hsu⟩ := unlock_asset_books _ _ _ _ hun
      cases h2
      exact ⟨hbu, hsu⟩
  · cases h2
    exact ⟨rfl, rfl⟩

theorem sweepSellOne_books (s s1 : DexService) (hsh : Hash) (o : Order)
    (heq : s.sweepSellOne hsh o = some s1) :
    s1.sell_orders = mapRemove hsh s.sell_orders ∧ s1.buy_orders = s.buy_orders := by
  unfold DexService.sweepSellOne at heq
  rw [Option.map_eq_some'] at heq
  obtain ⟨s2, h2, h3⟩ := heq
  subst h3
  split at h2
  · split at h2
    · cases h2
    · rename_i t htr
      rcases hun : DexService.unlock_asset _ _ with ⟨ru, su⟩
      rw [hun] at h2
      obtain ⟨hbu, hsu⟩ := unlock_asset_books _ _ _ _ hun
      cases h2
      exact ⟨hsu, hbu⟩
  · cases h2
    exact ⟨rfl, rfl⟩

theorem sweepBuys_booksOk : ∀ (l : List (Hash × Order)) (s s1 : DexService),
    DexService.sweepBuys s l = some s1 →
    (∀ x ∈ s.buy_orders, statusOk x.2) → (∀ x ∈ s.sell_orders, statusOk x.2) →
    (∀ x ∈ s1.buy_orders, statusOk x.2) ∧ (∀ x ∈ s1.sell_orders, statusOk x.2)
  | [], s, s1, heq, hb, hs => by
    unfold DexService.sweepBuys at heq
    cases heq
    exact ⟨hb, hs⟩
  | (hsh, o) :: rest, s, s1, heq, hb, hs => by
    unfold DexService.sweepBuys at heq
    split at heq
    · cases heq
    · rename_i sM hOne
      obtain ⟨hbM, hsM⟩ := sweepBuyOne_books _ _ _ _ hOne
      exact sweepBuys_booksOk rest sM s1 heq
        (fun x hx => hb x (mem_mapRemove (hbM ▸ hx)))
        (fun x hx => hs x (hsM ▸ hx))

theorem sweepSells_booksOk : ∀ (l : List (Hash × Order)) (s s1 : DexService),
    DexService.sweepSells s l = some s1 →
    (∀ x ∈ s.buy_orders, statusOk x.2) → (∀ x ∈ s.sell_orders, statusOk x.2) →
    (∀ x ∈ s1.buy_orders, statusOk x.2) ∧ (∀ x ∈ s1.sell_orders, statusOk x.2)
  | [], s, s1, heq, hb, hs => by
    unfold DexService.sweepSells at heq
    cases heq
    exact ⟨hb, hs⟩
  | (hsh, o) :: rest, s, s1, heq, hb, hs => by
    unfold DexService.sweepSells at heq
    split at heq
    · cases heq
    · rename_i sM hOne
      obtain ⟨hsM, hbM⟩ := sweepSellOne_books _ _ _ _ hOne
      exact sweepSells_booksOk rest sM s1 heq
        (fun x hx => hb x (hbM ▸ hx))
        (fun x hx => hs x (mem_mapRemove (hsM ▸ hx)))

theorem sweep_preserves_booksOk (s s1 : DexService) (h : Nat)
    (heq : s.remove_expiry_orders h = some s1) (hok : booksOk s) : booksOk s1 := by
  obtain ⟨hb, hs⟩ := hok
  unfold DexService.remove_expiry_orders at heq
  split at heq
  · cases heq
  · rename_i sM hBuys
    obtain ⟨hbM, hsM⟩ := sweepBuys_booksOk _ _ _ hBuys hb hs
    obtain ⟨hb1, hs1⟩ := sweepSells_booksOk _ _ _ heq hbM hsM
    exact ⟨hb1, hs1⟩

/-- C10: every order in the active books has status `Fresh` or `Partial v`
with `v < amount` (`statusOk`) — a shape that excludes `Full` — and this
invariant is preserved by order placement, by the three settlement functions
(for the partially filled side under the call-site guarantee
`dealt + deal_amount < amount`), and by the expiry sweep; the `Full` arms of
the match loop's remaining-amount computation are therefore unreachable for
orders drawn from the books. -/
theorem active_books_status_invariant :
    (∀ o : Order, statusOk o → o.status ≠ .Full) ∧
    (∀ (s : DexService) (caller : Address) (txh : Hash) (h : Nat) (p : OrderPayload),
      booksOk s → booksOk (s.order caller txh h p).2) ∧
    (∀ (s : DexService) (dp q : Nat) (b sl : Order) (r : Except DexFail Order)
      (s1 : DexService), s.settle_buyer dp q b sl = some (r, s1) → booksOk s →
      (∀ dv, sl.status.dealtAmount = some dv → dv + q < sl.amount) → booksOk s1) ∧
    (∀ (s : DexService) (dp q : Nat) (b sl : Order) (r : Except DexFail Order)
      (s1 : DexService), s.settle_seller dp q b sl = some (r, s1) → booksOk s →
      (∀ dv, b.status.dealtAmount = some dv → dv + q < b.amount) → booksOk s1) ∧
    (∀ (s : DexService) (dp q : Nat) (b sl : Order), booksOk s →
      booksOk (s.settle_both dp q b sl).2) ∧
    (∀ (s s1 : DexService) (h : Nat), s.remove_expiry_orders h = some s1 →
      booksOk s → booksOk s1) := by
  refine ⟨?_, order_preserves_booksOk, settle_buyer_preserves_booksOk,
    settle_seller_preserves_booksOk, settle_both_preserves_booksOk,
    fun s s1 h heq hok => sweep_preserves_booksOk s s1 h heq hok⟩
  intro o h1 h2
  rcases h1 with h1 | ⟨v, h1, -⟩ <;> rw [h2] at h1 <;> cases h1

theorem active_books_status_invariant_witness :
    c2Order.status ≠ .Full ∧
    booksOk (c7Dex.order "u1" "h1" 0 ⟨"t", .Buy, 1, 1, 0⟩).2 ∧
    booksOk c10BuyRes.2 ∧
    booksOk c10SellRes.2 ∧
    booksOk (c1Dex.settle_both 1 1 buyO sellO).2 ∧
    booksOk c10SweepRes := by
  have hE : booksOk c7Dex :=
    ⟨fun x hx => absurd hx (List.not_mem_nil x), fun x hx => absurd hx (List.not_mem_nil x)⟩
  have hC1 : booksOk c1Dex := by
    constructor <;> intro x hx <;> simp [c1Dex] at hx <;> subst hx <;> exact Or.inl rfl
  have hC2 : booksOk c2Dex := by
    constructor <;> intro x hx
    · simp [c2Dex] at hx
      subst hx
      exact Or.inl rfl
    · simp [c2Dex] at hx
  refine ⟨active_books_status_invariant.1 c2Order (Or.inl rfl),
    active_books_status_invariant.2.1 c7Dex "u1" "h1" 0 ⟨"t", .Buy, 1, 1, 0⟩ hE,
    active_books_status_invariant.2.2.1 c1Dex 1 1 buyO sellO c10BuyRes.1 c10BuyRes.2
      rfl hC1 ?_,
    active_books_status_invariant.2.2.2.1 c1Dex 1 1 buyBig sellO c10SellRes.1 c10SellRes.2
      rfl hC1 ?_,
    active_books_status_invariant.2.2.2.2.1 c1Dex 1 1 buyO sellO hC1,
    active_books_status_invariant.2.2.2.2.2 c2Dex c10SweepRes 102 rfl hC2⟩
  · intro dv hdv
    simp only [sellO, OrderStatus.dealtAmount, Option.some.injEq] at hdv
    subst hdv
    decide
  · intro dv hdv
    simp only [buyBig, OrderStatus.dealtAmount, Option.some.injEq] at hdv
    subst hdv
    decide

end MutaDex
